import Mathlib

/-!
Shallow embedding of the hamstring-injury-prediction reduction pipeline.

The backend logic is taken from the repository sources, mainly the
`/api/predict` implementation (`validate_biomarkers`,
`determine_primary_tissue`, `count_filled_fields`,
`calculate_elevation_score`, `select_primary_metabolite`,
`run_gnode_model`) and the feature encoder `prepare_biomarker_features`,
plus the frontend validators `BiomarkerInputForm.validateForm` and
`validateBiomarkerData`.

Panels are association lists from analyte name to an optional numeric
value (`none` models an absent / blank value).  Machine floats are
modelled as rationals; Python `round(x, n)` is modelled with its
round-half-to-even behaviour on the rational value.  The mock model's
`np.random.uniform(0, 0.3)` draw is made an explicit parameter `u`.
-/

namespace InjuryPrediction

/-- The three tissue sources. -/
inductive Tissue where
  | saliva
  | sweat
  | urine
deriving DecidableEq, Repr

/-- Risk bands.  `CRITICAL` appears in the repository documentation and
frontend; whether the backend classifier can produce it is part of what
is verified below. -/
inductive RiskCat where
  | LOW
  | MODERATE
  | HIGH
  | CRITICAL
deriving DecidableEq, Repr

/-- Molecular weight entries in the metabolite database: `none`
(Python `None`, e.g. pH), the string `'Variable'` (e.g. protein), or a
number. -/
inductive MWVal where
  | noneMW
  | variableMW
  | numMW (q : ℚ)
deriving DecidableEq, Repr

/-- A tissue panel: analyte name to optional supplied value, in the
JSON key order of the request. -/
abbrev Panel := List (String × Option ℚ)

/-- One assessment request's three panels. -/
structure Biomarkers where
  saliva : Panel
  sweat : Panel
  urine : Panel

/-- Panel lookup by tissue. -/
def panelOf (b : Biomarkers) : Tissue → Panel
  | Tissue.saliva => b.saliva
  | Tissue.sweat => b.sweat
  | Tissue.urine => b.urine

/-- Python's round-half-to-even on a rational, as used by
`round(x, ndigits)` after scaling. -/
def pyRoundInt (q : ℚ) : ℤ :=
  let f := ⌊q⌋
  if q - f < 1/2 then f
  else if q - f > 1/2 then f + 1
  else if f % 2 = 0 then f else f + 1

/-- `round(x, 1)`. -/
def pyRound1 (q : ℚ) : ℚ := (pyRoundInt (q * 10) : ℚ) / 10

/-- `round(x, 2)`. -/
def pyRound2 (q : ℚ) : ℚ := (pyRoundInt (q * 100) : ℚ) / 100

/-- The deviation expression shared verbatim by
`calculate_elevation_score` and `select_primary_metabolite`:
below range `(lo - v)/lo`, above range `(v - hi)/hi`, otherwise `0`. -/
def deviationIn (lo hi v : ℚ) : ℚ :=
  if v < lo then (lo - v) / lo
  else if v > hi then (v - hi) / hi
  else 0

/-- `normal_ranges` table of `calculate_elevation_score`. -/
def normal_ranges (n : String) : Option (ℚ × ℚ) :=
  match n with
  | "cortisol" => some (3/10, 8/10)
  | "testosterone" => some (1/10, 4/10)
  | "iga" => some (1/2, 1)
  | "sodium" => some (20, 60)
  | "lactate" => some (1/2, 11/5)
  | "glucose" => some (50, 150)
  | "creatinine" => some (3/5, 6/5)
  | "protein" => some (0, 150)
  | "specific_gravity" => some (201/200, 103/100)
  | _ => none

/-- `count_filled_fields`: entries whose value is neither `None` nor
the empty string. -/
def count_filled_fields (p : Panel) : Nat :=
  (p.filter (fun e => e.2.isSome)).length

/-- `calculate_elevation_score`: average deviation over the panel's
analytes that have a value and a reference range, doubled and capped
at `2.0`. -/
def calculate_elevation_score (p : Panel) : ℚ :=
  let contribs := p.filterMap (fun e =>
    match e.2 with
    | none => none
    | some v =>
      match normal_ranges e.1 with
      | none => none
      | some r => some (deviationIn r.1 r.2 v))
  if contribs.length = 0 then 0
  else min (contribs.sum / (contribs.length : ℚ) * 2) 2

/-- `injury_relevance` clinical weights. -/
def injury_relevance : Tissue → ℚ
  | Tissue.sweat => 1
  | Tissue.urine => 7/10
  | Tissue.saliva => 1/2

/-- The composite tissue score assembled by `determine_primary_tissue`:
relevance, plus `min(filled/10, 0.3)` when the panel has data, plus the
elevation score. -/
def tissueScore (b : Biomarkers) (t : Tissue) : ℚ :=
  let c := count_filled_fields (panelOf b t)
  injury_relevance t
    + (if 0 < c then min ((c : ℚ) / 10) (3/10) else 0)
    + calculate_elevation_score (panelOf b t)

/-- `max(scores, key=scores.get)` over the dict built in insertion
order saliva, sweat, urine: keep the current best, replace only on a
strictly greater score. -/
def argmaxTissue (f : Tissue → ℚ) : Tissue :=
  let b1 := if f Tissue.sweat > f Tissue.saliva then Tissue.sweat else Tissue.saliva
  if f Tissue.urine > f b1 then Tissue.urine else b1

/-- Result of `determine_primary_tissue` (the fields the claims are
about). -/
structure TissueSelection where
  tissue : Tissue
  confidence : String
deriving DecidableEq, Repr

/-- `determine_primary_tissue`: honor an explicit user preference,
otherwise pick the arg-max of the composite scores; confidence is
`high` when the winning score exceeds `2.0`. -/
def determine_primary_tissue (b : Biomarkers) (pref : Option Tissue) : TissueSelection :=
  match pref with
  | some t => { tissue := t, confidence := "user_specified" }
  | none =>
    let sel := argmaxTissue (tissueScore b)
    { tissue := sel
      confidence := if tissueScore b sel > 2 then "high" else "medium" }

/-- One `metabolite_db` record: molecular weight, normal range,
clinical importance. -/
structure MetabInfo where
  mw : MWVal
  lo : ℚ
  hi : ℚ
  importance : ℚ
deriving DecidableEq, Repr

/-- The `metabolite_db` of `select_primary_metabolite`. -/
def metabolite_db (n : String) : Option MetabInfo :=
  match n with
  | "cortisol" => some ⟨MWVal.numMW (18123/50), 3/10, 8/10, 4/5⟩
  | "testosterone" => some ⟨MWVal.numMW (14421/50), 1/10, 4/10, 3/5⟩
  | "iga" => some ⟨MWVal.numMW 150000, 1/2, 1, 1/2⟩
  | "alpha_amylase" => some ⟨MWVal.numMW 55000, 20, 100, 2/5⟩
  | "lactate" => some ⟨MWVal.numMW (8907/100), 1/2, 11/5, 1⟩
  | "sodium" => some ⟨MWVal.numMW (2299/100), 20, 60, 3/10⟩
  | "glucose" => some ⟨MWVal.numMW (4504/25), 50, 150, 1/2⟩
  | "chloride" => some ⟨MWVal.numMW (709/20), 10, 70, 1/5⟩
  | "potassium" => some ⟨MWVal.numMW (391/10), 2, 8, 2/5⟩
  | "creatinine" => some ⟨MWVal.numMW (2828/25), 3/5, 6/5, 7/10⟩
  | "protein" => some ⟨MWVal.variableMW, 0, 150, 3/5⟩
  | "specific_gravity" => some ⟨MWVal.noneMW, 201/200, 103/100, 3/10⟩
  | "ph_level" => some ⟨MWVal.noneMW, 9/2, 8, 1/5⟩
  | "urea" => some ⟨MWVal.numMW (3003/50), 7, 20, 1/2⟩
  | _ => none

/-- Python truthiness of a `mw` field, as used by the fallback test
`metabolite_db[name]['mw']`. -/
def truthyMW : MWVal → Bool
  | MWVal.noneMW => false
  | MWVal.variableMW => true
  | MWVal.numMW q => decide (q ≠ 0)

/-- An entry of the `scores` dict built by `select_primary_metabolite`. -/
structure ScoredMetab where
  name : String
  info : MetabInfo
  value : ℚ
  dev : ℚ
  score : ℚ
deriving DecidableEq, Repr

/-- The `scores` dict in panel order: analytes with a value, present in
the database, whose `mw` is not `None`. -/
def scoreEntries (p : Panel) : List ScoredMetab :=
  p.filterMap (fun e =>
    match e.2 with
    | none => none
    | some v =>
      match metabolite_db e.1 with
      | none => none
      | some i =>
        match i.mw with
        | MWVal.noneMW => none
        | _ =>
          some { name := e.1, info := i, value := v
                 dev := deviationIn i.lo i.hi v
                 score := i.importance * (1 + deviationIn i.lo i.hi v) })

/-- `max(scores, key=...)`: first entry of maximal score in insertion
order. -/
def bestScored : List ScoredMetab → Option ScoredMetab
  | [] => none
  | e :: es => some (es.foldl (fun acc x => if x.score > acc.score then x else acc) e)

/-- Result record of `select_primary_metabolite` (the fields the claims
are about).  The returned `deviationPercent` is the raw deviation
converted to a percentage and rounded to one decimal. -/
structure MetaboliteSelection where
  name : String
  mw : MWVal
  value : Option ℚ
  deviationPercent : ℚ
  elevated : Bool
deriving DecidableEq, Repr

/-- The guard of the fallback loop:
`metabolite_name in metabolite_db and metabolite_db[...]['mw']`. -/
def fallbackEligible (pr : String × Option ℚ) : Bool :=
  match metabolite_db pr.1 with
  | some i => truthyMW i.mw
  | none => false

/-- `select_primary_metabolite`: score the eligible analytes and take
the best; when no analyte scored, fall back to the first panel entry
whose database `mw` is truthy (`deviation 0`, `elevated False`); when
even that fails the Python `max` raises (modelled as `none`). -/
def select_primary_metabolite (p : Panel) : Option MetaboliteSelection :=
  match bestScored (scoreEntries p) with
  | some e =>
    some { name := e.name, mw := e.info.mw, value := some e.value
           deviationPercent := pyRound1 (e.dev * 100)
           elevated := decide (e.dev > 0) }
  | none =>
    match p.find? fallbackEligible with
    | some (n, v) =>
      match metabolite_db n with
      | some i =>
        some { name := n, mw := i.mw, value := v
               deviationPercent := 0, elevated := false }
      | none => none
    | none => none

/-- `validate_biomarkers`: valid iff some panel holds a value that is
neither `None` nor the empty string. -/
def validate_biomarkers (b : Biomarkers) : Bool :=
  decide (0 < count_filled_fields b.saliva + count_filled_fields b.sweat
    + count_filled_fields b.urine)

/-- The 7-feature dict consumed by the GNODE model, in the fixed key
order `mw, tissue_sweat, tissue_urine, rms_feat, zero_crossings,
skewness, waveform_length`. -/
structure Features where
  mw : ℚ
  tissue_sweat : ℚ
  tissue_urine : ℚ
  rms_feat : ℚ
  zero_crossings : ℚ
  skewness : ℚ
  waveform_length : ℚ
deriving DecidableEq, Repr

/-- The feature vector in the order the model loader reads the dict. -/
def Features.toVec (f : Features) : List ℚ :=
  [f.mw, f.tissue_sweat, f.tissue_urine, f.rms_feat, f.zero_crossings,
   f.skewness, f.waveform_length]

/-- The `tissue_encoding` table: saliva `(0,0)`, sweat `(1,0)`,
urine `(0,1)`. -/
def tissueFlags : Tissue → ℚ × ℚ
  | Tissue.saliva => (0, 0)
  | Tissue.sweat => (1, 0)
  | Tissue.urine => (0, 1)

/-- What `run_gnode_model` returns. -/
structure Prediction where
  probability : ℚ
  risk_category : RiskCat
  confidence : ℚ
deriving DecidableEq, Repr

/-- The categorisation at the end of `run_gnode_model`: three bands at
`0.33` and `0.67`. -/
def categorize (p : ℚ) : RiskCat :=
  if p < 33/100 then RiskCat.LOW
  else if p < 67/100 then RiskCat.MODERATE
  else RiskCat.HIGH

/-- `run_gnode_model`: with `rms_feat = 0` (no EMG) the mock heuristic
`min(0.3 + 0.1[mw>200] + 0.15[sweat] + uniform(0,0.3), 1.0)` with
confidence `0.70`; otherwise the fixed example `0.51` with confidence
`0.94`.  The `np.random.uniform(0, 0.3)` draw is the parameter `u`. -/
def run_gnode_model (f : Features) (u : ℚ) : Prediction :=
  if f.rms_feat = 0 then
    let base := 3/10 + (if f.mw > 200 then 1/10 else 0)
      + (if f.tissue_sweat = 1 then 15/100 else 0)
    let p := min (base + u) 1
    { probability := pyRound2 p, risk_category := categorize p
      confidence := 70/100 }
  else
    { probability := pyRound2 (51/100), risk_category := categorize (51/100)
      confidence := 94/100 }

/-- Optional auxiliary (EMG) signal values supplied by the caller. -/
structure EmgData where
  rms : Option ℚ
  zeroCrossings : Option ℚ
  skewness : Option ℚ
  waveformLength : Option ℚ
deriving DecidableEq, Repr

/-- Modelled from the spec: `prepare_model_features` is called by the
`/api/predict` endpoint with the selected tissue, the selected
metabolite's molecular weight and the optional `emg` block, but its
definition is absent from the repository sources.  Per §4.5 the vector
is the molecular weight, the two-slot one-hot tissue encoding with
saliva as baseline, and the four auxiliary slots taken from the
caller-supplied values when present, else `0.0` each. -/
def prepare_model_features (t : Tissue) (mw : ℚ) (emg : Option EmgData) : Features :=
  { mw := mw
    tissue_sweat := (tissueFlags t).1
    tissue_urine := (tissueFlags t).2
    rms_feat := (emg.bind EmgData.rms).getD 0
    zero_crossings := (emg.bind EmgData.zeroCrossings).getD 0
    skewness := (emg.bind EmgData.skewness).getD 0
    waveform_length := (emg.bind EmgData.waveformLength).getD 0 }

/-- Outcome of the `/api/predict` endpoint: the 400 rejection from
`validate_biomarkers`, the 500 path taken when the handler raises, or
a success payload. -/
inductive ApiResponse where
  | badRequest (msg : String)
  | serverError
  | ok (ts : TissueSelection) (ms : MetaboliteSelection) (pred : Prediction)
deriving DecidableEq, Repr

/-- The error message of the `NoDataProvided` rejection. -/
def noDataMsg : String :=
  "No biomarker data provided. Please enter at least one value."

/-- `predict_injury_risk`: validate, auto-select the tissue, select the
metabolite from that tissue's panel, encode features, run the model.
A failed metabolite selection (empty winning panel) or a non-numeric
molecular weight reaching the model's `mw > 200` comparison raises in
Python and is served as a 500 (`serverError`). -/
def predict_injury_risk (b : Biomarkers) (emg : Option EmgData) (u : ℚ) : ApiResponse :=
  if validate_biomarkers b = false then ApiResponse.badRequest noDataMsg
  else
    let ts := determine_primary_tissue b none
    match select_primary_metabolite (panelOf b ts.tissue) with
    | none => ApiResponse.serverError
    | some ms =>
      match ms.mw with
      | MWVal.numMW mwq =>
        ApiResponse.ok ts ms (run_gnode_model (prepare_model_features ts.tissue mwq emg) u)
      | _ => ApiResponse.serverError

/-- The five metabolites handled by `prepare_biomarker_features`. -/
inductive Metab where
  | lactate
  | glucose
  | sodium
  | cortisol
  | creatinine
deriving DecidableEq, Repr

/-- Input of `prepare_biomarker_features`: the five biomarker fields the
function reads from `ui_data`. -/
structure UIData where
  sweat_lactate : Option ℚ
  sweat_glucose : Option ℚ
  sweat_sodium : Option ℚ
  saliva_cortisol : Option ℚ
  urine_creatinine : Option ℚ
deriving DecidableEq, Repr

/-- `injury_relevance` weights of `prepare_biomarker_features`. -/
def metabRelevance : Metab → ℚ
  | Metab.lactate => 45/100
  | Metab.cortisol => 25/100
  | Metab.glucose => 15/100
  | Metab.creatinine => 10/100
  | Metab.sodium => 5/100

/-- `mw_lookup` of `prepare_biomarker_features` (restricted to the five
metabolites the deviation block can produce). -/
def metabMW : Metab → ℚ
  | Metab.lactate => 8907/100
  | Metab.cortisol => 18123/50
  | Metab.glucose => 4504/25
  | Metab.creatinine => 2828/25
  | Metab.sodium => 2299/100

/-- `tissue_map` of `prepare_biomarker_features`. -/
def metabTissue : Metab → Tissue
  | Metab.lactate => Tissue.sweat
  | Metab.glucose => Tissue.sweat
  | Metab.sodium => Tissue.sweat
  | Metab.cortisol => Tissue.saliva
  | Metab.creatinine => Tissue.urine

/-- The `deviations` dict of `prepare_biomarker_features`, in its
insertion order (lactate, glucose, sodium, cortisol, creatinine):
absolute fractional distance from a fixed centre. -/
def uiDeviations (ui : UIData) : List (Metab × ℚ) :=
  (match ui.sweat_lactate with
   | some v => if v ≠ 0 then [(Metab.lactate, |v - 11/5| / (11/5))] else []
   | none => [])
  ++ (match ui.sweat_glucose with
   | some v => if v ≠ 0 then [(Metab.glucose, |v - 95| / 95)] else []
   | none => [])
  ++ (match ui.sweat_sodium with
   | some v => if v ≠ 0 then [(Metab.sodium, |v - 40| / 40)] else []
   | none => [])
  ++ (match ui.saliva_cortisol with
   | some v => if v ≠ 0 then [(Metab.cortisol, |v - 1/2| / (1/2))] else []
   | none => [])
  ++ (match ui.urine_creatinine with
   | some v => if v ≠ 0 then [(Metab.creatinine, |v - 1|)] else []
   | none => [])

/-- First pair of maximal weight in list order (`max` over the
`weighted_scores` dict). -/
def bestWeighted : List (Metab × ℚ) → Option Metab
  | [] => none
  | e :: es =>
    some (es.foldl (fun acc x => if x.2 > acc.2 then x else acc) e).1

/-- The `primary_metabolite` chosen by `prepare_biomarker_features`:
arg-max of `deviation * relevance`, defaulting to lactate when no
field was supplied. -/
def uiPrimaryMetab (ui : UIData) : Metab :=
  (bestWeighted ((uiDeviations ui).map (fun e => (e.1, e.2 * metabRelevance e.1)))).getD
    Metab.lactate

/-- `prepare_biomarker_features` (the feature half of its return): the
selected metabolite's molecular weight, the one-hot tissue encoding of
its source tissue, and the four EMG slots fixed at `0`. -/
def prepare_biomarker_features (ui : UIData) : Features :=
  let primary := uiPrimaryMetab ui
  let t := metabTissue primary
  { mw := metabMW primary
    tissue_sweat := (tissueFlags t).1
    tissue_urine := (tissueFlags t).2
    rms_feat := 0
    zero_crossings := 0
    skewness := 0
    waveform_length := 0 }

/-- The nine fields of the frontend `formData`, in its key order. -/
structure FormData where
  salivaCortisol : Option ℚ
  salivaTestosterone : Option ℚ
  salivaIga : Option ℚ
  sweatSodium : Option ℚ
  sweatLactate : Option ℚ
  sweatGlucose : Option ℚ
  urineCreatinine : Option ℚ
  urineProtein : Option ℚ
  urinePh : Option ℚ
deriving DecidableEq, Repr

/-- The frontend `ranges` table (min, max) per field, identical in
`BiomarkerInputForm` and `validateBiomarkerData`. -/
def formRange : Fin 9 → ℚ × ℚ
  | 0 => (1/10, 15)
  | 1 => (10, 200)
  | 2 => (10, 500)
  | 3 => (1/2, 3)
  | 4 => (1/2, 4)
  | 5 => (50, 150)
  | 6 => (20, 400)
  | 7 => (0, 20)
  | 8 => (9/2, 8)

/-- The form's fields in iteration order. -/
def FormData.fields (fd : FormData) : Fin 9 → Option ℚ
  | 0 => fd.salivaCortisol
  | 1 => fd.salivaTestosterone
  | 2 => fd.salivaIga
  | 3 => fd.sweatSodium
  | 4 => fd.sweatLactate
  | 5 => fd.sweatGlucose
  | 6 => fd.urineCreatinine
  | 7 => fd.urineProtein
  | 8 => fd.urinePh

/-- `validateField` of `BiomarkerInputForm`: an error for a supplied
value outside the form range, `null` otherwise. -/
def fieldRangeError (i : Fin 9) (v : Option ℚ) : Bool :=
  match v with
  | none => false
  | some q => decide (q < (formRange i).1) || decide (q > (formRange i).2)

/-- Whether any form field carries a value. -/
def FormData.hasData (fd : FormData) : Bool :=
  (List.finRange 9).any (fun i => (fd.fields i).isSome)

/-- The `newErrors` keys accumulated by
`BiomarkerInputForm.validateForm`: one per supplied out-of-range field,
plus `general` when no field was supplied. -/
def formErrors (fd : FormData) : List (Fin 9 ⊕ Unit) :=
  ((List.finRange 9).filterMap (fun i =>
      if fieldRangeError i (fd.fields i) then some (Sum.inl i) else none))
    ++ (if fd.hasData then [] else [Sum.inr ()])

/-- `validateForm`: submission proceeds (`handleSubmit` opens the
user-details modal) exactly when the error map is empty. -/
def validateForm (fd : FormData) : Bool :=
  decide ((formErrors fd).length = 0)

/-- The `errors` array built by `validateBiomarkerData` in
`frontend/src/utils/api.js` (same per-field checks, error strings
abstracted to the offending field). -/
def apiErrors (fd : FormData) : List (Fin 9 ⊕ Unit) :=
  ((List.finRange 9).filterMap (fun i =>
      if fieldRangeError i (fd.fields i) then some (Sum.inl i) else none))
    ++ (if fd.hasData then [] else [Sum.inr ()])

/-- `validateBiomarkerData`: `isValid` iff the error array is empty. -/
def validateBiomarkerData (fd : FormData) : Bool :=
  decide (apiErrors fd = [])

/-! Definitions written from the spec's words, for comparison with the
source-derived ones, and concrete inputs used by the theorems below. -/

/-- The risk classification as the spec and the backend README document
it: four bands with thresholds `0.25`, `0.50`, `0.75`. -/
def specRiskBand (p : ℚ) : RiskCat :=
  if p < 1/4 then RiskCat.LOW
  else if p < 1/2 then RiskCat.MODERATE
  else if p < 3/4 then RiskCat.HIGH
  else RiskCat.CRITICAL

/-- The fallback heuristic value exactly as the spec documents it:
base `0.3`, `+0.1` for molecular weight over `200`, `+0.15` for sweat,
bounded to `[0,1]`. -/
def specFallbackValue (f : Features) : ℚ :=
  min (3/10 + (if f.mw > 200 then 1/10 else 0)
    + (if f.tissue_sweat = 1 then 15/100 else 0)) 1

/-- Position of each tissue in the score dict's insertion order
(saliva, sweat, urine), which is the order Python's `max` walks. -/
def tissueOrder : Tissue → Nat
  | Tissue.saliva => 0
  | Tissue.sweat => 1
  | Tissue.urine => 2

/-- A request whose only usable reading is an in-range saliva cortisol. -/
def onlySalivaInput : Biomarkers :=
  { saliva := [("cortisol", some (1/2))], sweat := [], urine := [] }

/-- A request with no usable reading anywhere. -/
def emptyInput : Biomarkers := { saliva := [], sweat := [], urine := [] }

/-- A request on which saliva and sweat tie at composite score `1.1`. -/
def tieInput : Biomarkers :=
  { saliva := [("cortisol", some (9/40))], sweat := [("lactate", some 1)]
    urine := [] }

/-- A feature dict carrying EMG data (`rms_feat` nonzero). -/
def emgFeatures : Features :=
  { mw := 8907/100, tissue_sweat := 1, tissue_urine := 0, rms_feat := 1/2
    zero_crossings := 0, skewness := 0, waveform_length := 0 }

/-- A feature dict with no EMG data, saliva baseline, light metabolite. -/
def plainFeatures : Features :=
  { mw := 100, tissue_sweat := 0, tissue_urine := 0, rms_feat := 0
    zero_crossings := 0, skewness := 0, waveform_length := 0 }

/-- Form data whose only value is a sweat lactate of `5`: numeric,
above the reference maximum `2.2` and above the form maximum `4`. -/
def blockedForm : FormData :=
  { salivaCortisol := none, salivaTestosterone := none, salivaIga := none
    sweatSodium := none, sweatLactate := some 5, sweatGlucose := none
    urineCreatinine := none, urineProtein := none, urinePh := none }

/-- Form data whose only value is a sweat lactate of `3.2`: numeric,
above the reference maximum `2.2` but inside the form range `[0.5,4]`. -/
def passingForm : FormData :=
  { salivaCortisol := none, salivaTestosterone := none, salivaIga := none
    sweatSodium := none, sweatLactate := some (16/5), sweatGlucose := none
    urineCreatinine := none, urineProtein := none, urinePh := none }

/-- A panel whose only reading is a cortisol below its reference
minimum. -/
def belowRangePanel : Panel := [("cortisol", some (1/10))]

/-- The scored entry `select_primary_metabolite` builds for
`belowRangePanel`. -/
def belowRangeEntry : ScoredMetab :=
  { name := "cortisol", info := ⟨MWVal.numMW (18123/50), 3/10, 8/10, 4/5⟩
    value := 1/10, dev := 2/3, score := 4/3 }

/-- The selection returned on `belowRangePanel`. -/
def belowRangeSel : MetaboliteSelection :=
  { name := "cortisol", mw := MWVal.numMW (18123/50), value := some (1/10)
    deviationPercent := 667/10, elevated := true }

/-- A panel whose lactate field is present but blank, exercising the
fallback branch. -/
def fallbackPanel : Panel := [("lactate", none)]

/-- A sample auxiliary block supplying only `rms`. -/
def emgSample : EmgData :=
  { rms := some (1/2), zeroCrossings := none, skewness := none
    waveformLength := none }

/-! Helper lemmas shared by the claim theorems. -/

lemma foldlBest_mem (es : List ScoredMetab) (a : ScoredMetab) :
    es.foldl (fun acc x => if x.score > acc.score then x else acc) a = a ∨
    es.foldl (fun acc x => if x.score > acc.score then x else acc) a ∈ es := by
  induction es generalizing a with
  | nil => left; rfl
  | cons y ys ih =>
    simp only [List.foldl_cons]
    rcases ih (if y.score > a.score then y else a) with h | h
    · by_cases hy : y.score > a.score
      · right; rw [h]; simp [hy]
      · left; rw [h]; simp [hy]
    · right; exact List.mem_cons_of_mem _ h

lemma foldlBest_le (es : List ScoredMetab) (a : ScoredMetab) :
    a.score ≤ (es.foldl (fun acc x => if x.score > acc.score then x else acc) a).score := by
  induction es generalizing a with
  | nil => simp
  | cons y ys ih =>
    simp only [List.foldl_cons]
    refine le_trans ?_ (ih _)
    by_cases hy : y.score > a.score
    · simp only [if_pos hy]; exact le_of_lt hy
    · simp [hy]

lemma foldlBest_max (es : List ScoredMetab) (a : ScoredMetab) :
    ∀ x ∈ es,
      x.score ≤ (es.foldl (fun acc x => if x.score > acc.score then x else acc) a).score := by
  induction es generalizing a with
  | nil => simp
  | cons y ys ih =>
    intro x hx
    simp only [List.foldl_cons]
    rcases List.mem_cons.mp hx with rfl | hx
    · refine le_trans ?_ (foldlBest_le ys _)
      by_cases hy : x.score > a.score
      · simp [hy]
      · simp only [if_neg hy]; exact le_of_not_lt hy
    · exact ih _ x hx

lemma bestScored_spec (e0 : ScoredMetab) (es : List ScoredMetab) :
    ∃ e, bestScored (e0 :: es) = some e ∧ e ∈ e0 :: es ∧
      ∀ x ∈ e0 :: es, x.score ≤ e.score := by
  refine ⟨es.foldl _ e0, rfl, ?_, ?_⟩
  · rcases foldlBest_mem es e0 with h | h
    · rw [h]; exact List.mem_cons_self _ _
    · exact List.mem_cons_of_mem _ h
  · intro x hx
    rcases List.mem_cons.mp hx with rfl | hx
    · exact foldlBest_le es _
    · exact foldlBest_max es _ x hx

lemma bestScored_eq_none {l : List ScoredMetab} : bestScored l = none ↔ l = [] := by
  cases l <;> simp [bestScored]

lemma bestScored_mem {l : List ScoredMetab} {e : ScoredMetab}
    (h : bestScored l = some e) : e ∈ l := by
  cases l with
  | nil => simp [bestScored] at h
  | cons e0 es =>
    obtain rfl := Option.some.inj h
    rcases foldlBest_mem es e0 with h | h
    · rw [h]; exact List.mem_cons_self _ _
    · exact List.mem_cons_of_mem _ h

lemma mem_scoreEntries {p : Panel} {e : ScoredMetab} (h : e ∈ scoreEntries p) :
    metabolite_db e.name = some e.info ∧ e.info.mw ≠ MWVal.noneMW ∧
    e.dev = deviationIn e.info.lo e.info.hi e.value ∧
    e.score = e.info.importance * (1 + e.dev) ∧ (e.name, some e.value) ∈ p := by
  rw [scoreEntries, List.mem_filterMap] at h
  obtain ⟨⟨n, v⟩, ha, hfa⟩ := h
  dsimp only at hfa
  cases v with
  | none => simp at hfa
  | some q =>
    cases hdb : metabolite_db n with
    | none => rw [hdb] at hfa; simp at hfa
    | some i =>
      rw [hdb] at hfa
      dsimp only at hfa
      cases hmw : i.mw with
      | noneMW => rw [hmw] at hfa; simp at hfa
      | variableMW =>
        rw [hmw] at hfa
        obtain rfl := Option.some.inj hfa
        exact ⟨hdb, by simp [hmw], rfl, rfl, ha⟩
      | numMW q =>
        rw [hmw] at hfa
        obtain rfl := Option.some.inj hfa
        exact ⟨hdb, by simp [hmw], rfl, rfl, ha⟩

lemma argmaxTissue_spec (f : Tissue → ℚ) (t : Tissue)
    (hmax : ∀ u, f u ≤ f t)
    (hlt : ∀ u, tissueOrder u < tissueOrder t → f u < f t) :
    argmaxTissue f = t := by
  cases t with
  | saliva =>
    have h1 : ¬ f Tissue.sweat > f Tissue.saliva := not_lt.2 (hmax _)
    have h2 : ¬ f Tissue.urine > f Tissue.saliva := not_lt.2 (hmax _)
    simp [argmaxTissue, h1, h2]
  | sweat =>
    have h1 : f Tissue.saliva < f Tissue.sweat := hlt _ (by simp [tissueOrder])
    have h2 : ¬ f Tissue.urine > f Tissue.sweat := not_lt.2 (hmax _)
    simp [argmaxTissue, h1, h2]
  | urine =>
    have h1 : f Tissue.saliva < f Tissue.urine := hlt _ (by simp [tissueOrder])
    have h2 : f Tissue.sweat < f Tissue.urine := hlt _ (by simp [tissueOrder])
    by_cases h3 : f Tissue.sweat > f Tissue.saliva
    · simp [argmaxTissue, h3, h2]
    · simp [argmaxTissue, h3, h1]

lemma deviationIn_pos_iff (lo hi v : ℚ) (hlo : 0 < lo) (hhi : 0 < hi) :
    0 < deviationIn lo hi v ↔ (v < lo ∨ hi < v) := by
  unfold deviationIn
  split_ifs with h1 h2
  · have hp : 0 < (lo - v) / lo := div_pos (by linarith) hlo
    simp [hp, h1]
  · have hp : 0 < (v - hi) / hi := div_pos (by linarith) hhi
    simp [hp, h2]
  · push_neg at h1 h2
    constructor
    · intro h; exact absurd h (lt_irrefl 0)
    · intro h; rcases h with h | h <;> linarith

lemma count_filled_pos_iff (p : Panel) :
    0 < count_filled_fields p ↔ ∃ e ∈ p, e.2.isSome = true := by
  unfold count_filled_fields
  rw [List.length_pos]
  constructor
  · intro h
    rcases List.exists_mem_of_ne_nil _ h with ⟨e, he⟩
    exact ⟨e, (List.mem_filter.mp he).1, (List.mem_filter.mp he).2⟩
  · rintro ⟨e, he, hs⟩ hnil
    have hmem : e ∈ List.filter (fun e => e.2.isSome) p :=
      List.mem_filter.mpr ⟨he, hs⟩
    rw [hnil] at hmem
    exact absurd hmem (List.not_mem_nil e)

lemma formErrors_nil_iff (fd : FormData) :
    formErrors fd = [] ↔
      (fd.hasData = true ∧ ∀ i : Fin 9, fieldRangeError i (fd.fields i) = false) := by
  unfold formErrors
  rw [List.append_eq_nil]
  constructor
  · rintro ⟨h1, h2⟩
    constructor
    · by_contra hd
      rw [if_neg hd] at h2
      exact absurd h2 (by simp)
    · intro i
      by_contra herr
      have hi : (Sum.inl i : Fin 9 ⊕ Unit) ∈
          (List.finRange 9).filterMap (fun i =>
            if fieldRangeError i (fd.fields i) then some (Sum.inl i) else none) := by
        rw [List.mem_filterMap]
        exact ⟨i, List.mem_finRange i, by simp at herr; simp [herr]⟩
      rw [h1] at hi
      exact absurd hi (by simp)
  · rintro ⟨hd, herr⟩
    refine ⟨?_, by rw [if_pos hd]⟩
    rw [List.filterMap_eq_nil_iff]
    intro i _
    rw [herr i]
    simp

/-! The claim theorems. -/

/-- C1.  The claim states four ordered bands at `0.25 / 0.50 / 0.75`
with `riskScore = round(p*100)`, and `0.51 → HIGH`; the backend's
`run_gnode_model` instead categorises with three bands at
`0.33 / 0.67`, classifies its returned probability `0.51` as
`MODERATE`, and can never produce `CRITICAL`, contradicting the
repository's own README risk table (the spec's classification).  This
theorem evaluates the code at the failing input and contrasts it with
the documented band function. -/
theorem C1_risk_bands_code_bug :
    (run_gnode_model emgFeatures 0).probability = 51/100 ∧
    (run_gnode_model emgFeatures 0).risk_category = RiskCat.MODERATE ∧
    specRiskBand (51/100) = RiskCat.HIGH ∧
    (RiskCat.MODERATE = RiskCat.HIGH) = False ∧
    (∀ p : ℚ, (categorize p = RiskCat.CRITICAL) = False) := by
  refine ⟨?_, ?_, ?_, by simp, ?_⟩
  · norm_num [run_gnode_model, emgFeatures, pyRound2, pyRoundInt]
  · norm_num [run_gnode_model, emgFeatures, categorize]
  · norm_num [specRiskBand]
  · intro p
    unfold categorize
    split_ifs <;> simp

/-- C2, counterexample.  The claim says the fallback returns exactly
the documented heuristic value for every encoded feature vector; on
the feature dict `plainFeatures` the documented value is `0.3`, yet
with the uniform draw `u = 0.2` the code returns probability `0.5`. -/
theorem C2_exact_heuristic_counterexample :
    specFallbackValue plainFeatures = 3/10 ∧
    (run_gnode_model plainFeatures (1/5)).probability = 1/2 ∧
    (((1 : ℚ)/2) = 3/10) = False := by
  refine ⟨?_, ?_, eq_false (by norm_num)⟩
  · norm_num [specFallbackValue, plainFeatures]
  · norm_num [run_gnode_model, plainFeatures, pyRound2, pyRoundInt, specFallbackValue]

/-- C2, amended.  When `rms_feat = 0` the mock model returns the
documented heuristic base (0.3, +0.1 for molecular weight over 200,
+0.15 for sweat) plus the uniform random draw `u ∈ [0, 0.3)`, capped
at `1.0` and rounded to two decimals; the pre-rounding probability
stays within `[0,1]` and the confidence is forced to `0.70`. -/
theorem C2_fallback_heuristic_amended (f : Features) (u : ℚ)
    (hrms : f.rms_feat = 0) (hu0 : 0 ≤ u) (hu1 : u < 3/10) :
    (run_gnode_model f u).confidence = 70/100 ∧
    (run_gnode_model f u).probability = pyRound2 (min (specFallbackValue f + u) 1) ∧
    0 ≤ min (specFallbackValue f + u) 1 ∧ min (specFallbackValue f + u) 1 ≤ 1 := by
  have hbase : specFallbackValue f
      = 3/10 + (if f.mw > 200 then 1/10 else 0)
        + (if f.tissue_sweat = 1 then 15/100 else 0) := by
    unfold specFallbackValue
    apply min_eq_left
    split_ifs <;> norm_num
  have hlow : 3/10 ≤ specFallbackValue f := by
    rw [hbase]; split_ifs <;> norm_num
  refine ⟨?_, ?_, ?_, min_le_right _ _⟩
  · unfold run_gnode_model
    rw [if_pos hrms]
  · unfold run_gnode_model
    rw [if_pos hrms, hbase]
  · apply le_min _ (by norm_num)
    linarith

/-- C2, witness for the amended theorem at `plainFeatures`, `u = 0`. -/
theorem C2_fallback_heuristic_amended_witness :
    (run_gnode_model plainFeatures 0).confidence = 70/100 ∧
    (run_gnode_model plainFeatures 0).probability
      = pyRound2 (min (specFallbackValue plainFeatures + 0) 1) :=
  ⟨(C2_fallback_heuristic_amended plainFeatures 0 rfl (by norm_num) (by norm_num)).1,
   (C2_fallback_heuristic_amended plainFeatures 0 rfl (by norm_num) (by norm_num)).2.1⟩

/-- C3.  The claim (and spec §8) says a solely populated tissue is
always selected; on a request whose only reading is an in-range saliva
cortisol the selector computes saliva `0.6`, sweat `1.0`, urine `0.7`
and selects the empty sweat panel, after which metabolite selection on
the empty panel raises and the endpoint serves a 500.  The code
contradicts its own documented behaviour (the spec's testable
property), so this evaluates the code at the failing input. -/
theorem C3_single_panel_code_bug :
    count_filled_fields onlySalivaInput.saliva = 1 ∧
    count_filled_fields onlySalivaInput.sweat = 0 ∧
    count_filled_fields onlySalivaInput.urine = 0 ∧
    tissueScore onlySalivaInput Tissue.saliva = 3/5 ∧
    tissueScore onlySalivaInput Tissue.sweat = 1 ∧
    (determine_primary_tissue onlySalivaInput none).tissue = Tissue.sweat ∧
    (Tissue.sweat = Tissue.saliva) = False ∧
    select_primary_metabolite (panelOf onlySalivaInput Tissue.sweat) = none ∧
    predict_injury_risk onlySalivaInput none 0 = ApiResponse.serverError := by
  refine ⟨?_, ?_, ?_, ?_, ?_, ?_, by simp, ?_, ?_⟩
  · norm_num [count_filled_fields, onlySalivaInput, List.filter]
  · norm_num [count_filled_fields, onlySalivaInput, List.filter]
  · norm_num [count_filled_fields, onlySalivaInput, List.filter]
  · norm_num [tissueScore, onlySalivaInput, panelOf, injury_relevance, count_filled_fields,
      calculate_elevation_score, List.filterMap, List.filter, normal_ranges, deviationIn]
  · norm_num [tissueScore, onlySalivaInput, panelOf, injury_relevance, count_filled_fields,
      calculate_elevation_score, List.filterMap, List.filter, normal_ranges, deviationIn]
  · norm_num [determine_primary_tissue, argmaxTissue, tissueScore, onlySalivaInput, panelOf,
      injury_relevance, count_filled_fields, calculate_elevation_score, List.filterMap,
      List.filter, normal_ranges, deviationIn]
  · norm_num [select_primary_metabolite, panelOf, onlySalivaInput, scoreEntries, bestScored,
      List.filterMap, List.find?]
  · norm_num [predict_injury_risk, validate_biomarkers, onlySalivaInput, count_filled_fields,
      List.filter, determine_primary_tissue, argmaxTissue, tissueScore, panelOf,
      injury_relevance, calculate_elevation_score, List.filterMap, normal_ranges, deviationIn,
      select_primary_metabolite, scoreEntries, bestScored, List.find?]

/-- C4, counterexample.  The claim says numeric out-of-range values
never block submission; a sweat lactate of `5` is numeric and above
its reference maximum `2.2` (so it carries a positive elevation
contribution), yet both frontend validators reject the form, so
`handleSubmit` never proceeds. -/
theorem C4_out_of_range_counterexample :
    validateForm blockedForm = false ∧
    validateBiomarkerData blockedForm = false ∧
    (11/5 : ℚ) < 5 ∧ 0 < deviationIn (1/2) (11/5) 5 := by
  refine ⟨?_, ?_, by norm_num, by norm_num [deviationIn]⟩
  · norm_num [validateForm, formErrors, blockedForm, FormData.hasData, FormData.fields,
      fieldRangeError, formRange, List.finRange, List.filterMap, List.any]
  · norm_num [validateBiomarkerData, apiErrors, blockedForm, FormData.hasData,
      FormData.fields, fieldRangeError, formRange, List.finRange, List.filterMap, List.any]

/-- C4, amended.  Submission proceeds exactly when some value is
supplied and every supplied value lies inside the frontend form's
wider validation ranges; the api-layer validator agrees with the form.
Values outside the backend reference ranges but inside the form ranges
(such as lactate `3.2`, reference `[0.5, 2.2]`, form range `[0.5, 4]`)
are not blocked and still carry a positive elevation contribution. -/
theorem C4_blocking_amended :
    (∀ fd : FormData,
      validateForm fd
        = (fd.hasData && (List.finRange 9).all (fun i => !fieldRangeError i (fd.fields i))) ∧
      validateBiomarkerData fd = validateForm fd) ∧
    validateForm passingForm = true ∧
    (11/5 : ℚ) < 16/5 ∧ 0 < deviationIn (1/2) (11/5) (16/5) := by
  refine ⟨?_, ?_, by norm_num, by norm_num [deviationIn]⟩
  · intro fd
    constructor
    · rw [Bool.eq_iff_iff]
      simp only [Bool.and_eq_true, List.all_eq_true, List.mem_finRange, Bool.not_eq_true',
        validateForm, decide_eq_true_eq, List.length_eq_zero, formErrors_nil_iff]
      tauto
    · simp [validateBiomarkerData, validateForm, apiErrors, formErrors,
        List.length_eq_zero]
  · norm_num [validateForm, formErrors, passingForm, FormData.hasData, FormData.fields,
      fieldRangeError, formRange, List.finRange, List.filterMap, List.any]

/-- C5.  `validate_biomarkers` succeeds exactly when some analyte in
some panel carries a value; on failure the endpoint returns the
`NoDataProvided` rejection before any downstream computation, and on
success the response is never that rejection. -/
theorem C5_validation_gate (b : Biomarkers) (emg : Option EmgData) (u : ℚ) :
    (validate_biomarkers b = true ↔
      ∃ e ∈ b.saliva ++ b.sweat ++ b.urine, e.2.isSome = true) ∧
    (validate_biomarkers b = false →
      predict_injury_risk b emg u = ApiResponse.badRequest noDataMsg) ∧
    (validate_biomarkers b = true →
      ∀ msg, predict_injury_risk b emg u ≠ ApiResponse.badRequest msg) := by
  refine ⟨?_, ?_, ?_⟩
  · rw [validate_biomarkers, decide_eq_true_eq]
    rw [show (0 < count_filled_fields b.saliva + count_filled_fields b.sweat
        + count_filled_fields b.urine) ↔
        (0 < count_filled_fields b.saliva ∨ 0 < count_filled_fields b.sweat
          ∨ 0 < count_filled_fields b.urine) from by omega]
    rw [count_filled_pos_iff, count_filled_pos_iff, count_filled_pos_iff]
    constructor
    · rintro (⟨e, he, hs⟩ | ⟨e, he, hs⟩ | ⟨e, he, hs⟩) <;>
        exact ⟨e, by simp [List.mem_append, he], hs⟩
    · rintro ⟨e, he, hs⟩
      rw [List.mem_append, List.mem_append] at he
      rcases he with (he | he) | he
      · exact Or.inl ⟨e, he, hs⟩
      · exact Or.inr (Or.inl ⟨e, he, hs⟩)
      · exact Or.inr (Or.inr ⟨e, he, hs⟩)
  · intro h
    rw [predict_injury_risk, if_pos h]
  · intro h msg
    simp only [predict_injury_risk]
    rw [if_neg (by simp [h])]
    rcases hsel : select_primary_metabolite
        (panelOf b (determine_primary_tissue b none).tissue) with _ | ms
    · simp [hsel]
    · rcases hmw : ms.mw with _ | _ | q <;> simp [hsel, hmw]

/-- C5, witness: the empty request is rejected with `NoDataProvided`,
and a request with one reading passes validation. -/
theorem C5_validation_gate_witness :
    predict_injury_risk emptyInput none 0 = ApiResponse.badRequest noDataMsg ∧
    validate_biomarkers onlySalivaInput = true :=
  ⟨(C5_validation_gate emptyInput none 0).2.1
      (by norm_num [validate_biomarkers, emptyInput, count_filled_fields, List.filter]),
   ((C5_validation_gate onlySalivaInput none 0).1).mpr
      ⟨("cortisol", some (1/2)), by simp [onlySalivaInput], rfl⟩⟩

/-- C6.  The shared deviation expression is `0` inside the reference
range (bounds inclusive), `(lo - v)/lo` below it and `(v - hi)/hi`
above it, and the elevation scorer applies exactly this expression to
a reading whose analyte has a reference range. -/
theorem C6_elevation_cases (lo hi v : ℚ) :
    (lo ≤ v → v ≤ hi → deviationIn lo hi v = 0) ∧
    (v < lo → deviationIn lo hi v = (lo - v) / lo) ∧
    (lo ≤ hi → hi < v → deviationIn lo hi v = (v - hi) / hi) ∧
    (∀ n : String, ∀ r : ℚ × ℚ, normal_ranges n = some r →
      calculate_elevation_score [(n, some v)] = min (deviationIn r.1 r.2 v * 2) 2) := by
  refine ⟨?_, ?_, ?_, ?_⟩
  · intro h1 h2
    unfold deviationIn
    rw [if_neg (not_lt.2 h1), if_neg (not_lt.2 h2)]
  · intro h
    unfold deviationIn
    rw [if_pos h]
  · intro hle h
    unfold deviationIn
    rw [if_neg (not_lt.2 (by linarith)), if_pos h]
  · intro n r hr
    unfold calculate_elevation_score
    simp [List.filterMap_cons, List.filterMap_nil, hr]

/-- C6, witness at the boundary and above-range lactate readings. -/
theorem C6_elevation_cases_witness :
    deviationIn (1/2) (11/5) (16/5) = ((16/5 : ℚ) - 11/5) / (11/5) ∧
    deviationIn (1/2) (11/5) (11/5) = 0 ∧
    calculate_elevation_score [("lactate", some (16/5))]
      = min (deviationIn (1/2) (11/5) (16/5) * 2) 2 :=
  ⟨(C6_elevation_cases (1/2) (11/5) (16/5)).2.2.1 (by norm_num) (by norm_num),
   (C6_elevation_cases (1/2) (11/5) (11/5)).1 (by norm_num) le_rfl,
   (C6_elevation_cases (1/2) (11/5) (16/5)).2.2.2 "lactate" (1/2, 11/5)
      (by norm_num [normal_ranges])⟩

/-- C7, counterexample.  The claim says ties break toward the
relevance order sweat, urine, saliva; on `tieInput` saliva and sweat
tie at `1.1` and the selector picks saliva, the first key of the
score dict, not sweat. -/
theorem C7_tie_break_counterexample :
    tissueScore tieInput Tissue.saliva = 11/10 ∧
    tissueScore tieInput Tissue.sweat = 11/10 ∧
    (determine_primary_tissue tieInput none).tissue = Tissue.saliva ∧
    (Tissue.saliva = Tissue.sweat) = False := by
  refine ⟨?_, ?_, ?_, by simp⟩
  · norm_num [tissueScore, tieInput, panelOf, injury_relevance, count_filled_fields,
      calculate_elevation_score, List.filterMap, List.filter, normal_ranges, deviationIn]
  · norm_num [tissueScore, tieInput, panelOf, injury_relevance, count_filled_fields,
      calculate_elevation_score, List.filterMap, List.filter, normal_ranges, deviationIn]
  · norm_num [determine_primary_tissue, argmaxTissue, tissueScore, tieInput, panelOf,
      injury_relevance, count_filled_fields, calculate_elevation_score, List.filterMap,
      List.filter, normal_ranges, deviationIn]

/-- C7, amended.  The selector picks a tissue whose composite score is
maximal; among equal maxima it picks the tissue earliest in the score
dict's insertion order saliva, sweat, urine. -/
theorem C7_highest_score_amended (b : Biomarkers) (t : Tissue)
    (hmax : ∀ u, tissueScore b u ≤ tissueScore b t)
    (hord : ∀ u, tissueOrder u < tissueOrder t → tissueScore b u < tissueScore b t) :
    (determine_primary_tissue b none).tissue = t := by
  simp only [determine_primary_tissue]
  exact argmaxTissue_spec _ t hmax hord

/-- C7, witness: on the tied request the amended rule selects saliva. -/
theorem C7_highest_score_amended_witness :
    (determine_primary_tissue tieInput none).tissue = Tissue.saliva := by
  apply C7_highest_score_amended
  · intro u
    cases u <;>
      norm_num [tissueScore, tieInput, panelOf, injury_relevance, count_filled_fields,
        calculate_elevation_score, List.filterMap, List.filter, normal_ranges, deviationIn]
  · intro u h
    cases u <;> simp [tissueOrder] at h

/-- C8.  Within the selected panel every scored analyte has a database
record and a non-`None` molecular weight, is scored as
`importance * (1 + deviation)`, the best scorer is chosen, and when no
analyte scored the selection falls back to the first panel entry with
a truthy molecular weight, recording deviation `0` and
`elevated = false`. -/
theorem C8_metabolite_selection (p : Panel) :
    (∀ e ∈ scoreEntries p,
      metabolite_db e.name = some e.info ∧ e.info.mw ≠ MWVal.noneMW ∧
      e.dev = deviationIn e.info.lo e.info.hi e.value ∧
      e.score = e.info.importance * (1 + e.dev)) ∧
    (scoreEntries p ≠ [] →
      ∃ e, bestScored (scoreEntries p) = some e ∧ e ∈ scoreEntries p ∧
        (∀ x ∈ scoreEntries p, x.score ≤ e.score) ∧
        select_primary_metabolite p
          = some { name := e.name, mw := e.info.mw, value := some e.value
                   deviationPercent := pyRound1 (e.dev * 100)
                   elevated := decide (e.dev > 0) }) ∧
    (scoreEntries p = [] → ∀ n v, p.find? fallbackEligible = some (n, v) →
      ∃ i, metabolite_db n = some i ∧ truthyMW i.mw = true ∧
        select_primary_metabolite p
          = some { name := n, mw := i.mw, value := v
                   deviationPercent := 0, elevated := false }) := by
  refine ⟨?_, ?_, ?_⟩
  · intro e he
    obtain ⟨h1, h2, h3, h4, _⟩ := mem_scoreEntries he
    exact ⟨h1, h2, h3, h4⟩
  · intro hne
    rcases hl : scoreEntries p with _ | ⟨e0, es⟩
    · exact absurd hl hne
    · obtain ⟨e, hbest, hmem, hmax⟩ := bestScored_spec e0 es
      refine ⟨e, hbest, hmem, hmax, ?_⟩
      simp only [select_primary_metabolite, hl, hbest]
  · intro hnil n v hfind
    have hb : bestScored (scoreEntries p) = none := by rw [hnil]; rfl
    have helig : fallbackEligible (n, v) = true := List.find?_some hfind
    unfold fallbackEligible at helig
    dsimp only at helig
    rcases hdb : metabolite_db n with _ | i
    · rw [hdb] at helig
      simp at helig
    · rw [hdb] at helig
      refine ⟨i, rfl, by simpa using helig, ?_⟩
      simp only [select_primary_metabolite, hb, hfind, hdb]

/-- C8, witness: a panel whose lactate field is blank exercises the
fallback and yields lactate with deviation `0` and `elevated = false`. -/
theorem C8_metabolite_selection_witness :
    select_primary_metabolite fallbackPanel
      = some { name := "lactate", mw := MWVal.numMW (8907/100), value := none
               deviationPercent := 0, elevated := false } := by
  obtain ⟨i, hi, htr, hsel⟩ := (C8_metabolite_selection fallbackPanel).2.2
    (by norm_num [scoreEntries, fallbackPanel, List.filterMap]) "lactate" none
    (by norm_num [List.find?, fallbackEligible, fallbackPanel, metabolite_db, truthyMW])
  have h2 : metabolite_db "lactate"
      = some (⟨MWVal.numMW (8907/100), 1/2, 11/5, 1⟩ : MetabInfo) := by
    norm_num [metabolite_db]
  have hieq : i = (⟨MWVal.numMW (8907/100), 1/2, 11/5, 1⟩ : MetabInfo) :=
    (Option.some.inj (h2.symm.trans hi)).symm
  rw [hsel, hieq]

/-- C9.  Both feature encoders produce exactly seven slots in the
fixed order, the tissue pair is always one of the one-hot-or-baseline
encodings (never both `1`), and the auxiliary slots are the
caller-supplied values when present and `0.0` otherwise (the in-source
encoder `prepare_biomarker_features` accepts no auxiliary input and
always emits `0`; the endpoint's encoder is modelled from the spec). -/
theorem C9_feature_vector :
    (∀ ui : UIData,
      (prepare_biomarker_features ui).toVec.length = 7 ∧
      (prepare_biomarker_features ui).toVec
        = [metabMW (uiPrimaryMetab ui),
           (tissueFlags (metabTissue (uiPrimaryMetab ui))).1,
           (tissueFlags (metabTissue (uiPrimaryMetab ui))).2, 0, 0, 0, 0] ∧
      ¬((prepare_biomarker_features ui).tissue_sweat = 1 ∧
        (prepare_biomarker_features ui).tissue_urine = 1) ∧
      ((prepare_biomarker_features ui).tissue_sweat,
        (prepare_biomarker_features ui).tissue_urine) ∈
          [((0 : ℚ), (0 : ℚ)), (1, 0), (0, 1)]) ∧
    (∀ (t : Tissue) (mw : ℚ) (emg : Option EmgData),
      (prepare_model_features t mw emg).toVec.length = 7 ∧
      ((prepare_model_features t mw emg).tissue_sweat,
        (prepare_model_features t mw emg).tissue_urine) = tissueFlags t ∧
      ¬((prepare_model_features t mw emg).tissue_sweat = 1 ∧
        (prepare_model_features t mw emg).tissue_urine = 1) ∧
      (prepare_model_features t mw none).toVec
        = [mw, (tissueFlags t).1, (tissueFlags t).2, 0, 0, 0, 0] ∧
      (∀ e : EmgData, (prepare_model_features t mw (some e)).toVec
        = [mw, (tissueFlags t).1, (tissueFlags t).2, e.rms.getD 0,
           e.zeroCrossings.getD 0, e.skewness.getD 0, e.waveformLength.getD 0])) := by
  constructor
  · intro ui
    refine ⟨rfl, rfl, ?_, ?_⟩
    · rcases h : metabTissue (uiPrimaryMetab ui) <;>
        norm_num [prepare_biomarker_features, h, tissueFlags]
    · rcases h : metabTissue (uiPrimaryMetab ui) <;>
        simp [prepare_biomarker_features, h, tissueFlags]
  · intro t mw emg
    refine ⟨rfl, rfl, ?_, rfl, fun e => rfl⟩
    rcases t <;> norm_num [prepare_model_features, tissueFlags]

/-- C9, witness: the spec-modelled endpoint encoder at sweat, lactate
molecular weight and a supplied `rms` auxiliary value. -/
theorem C9_feature_vector_witness :
    (prepare_model_features Tissue.sweat (8907/100) (some emgSample)).toVec
      = [8907/100, 1, 0, 1/2, 0, 0, 0] := by
  have h := (C9_feature_vector.2 Tissue.sweat (8907/100) (some emgSample)).2.2.2.2 emgSample
  rw [h]
  norm_num [tissueFlags, emgSample]

/-- C10.  The selection's `elevated` flag is `true` exactly when the
selected analyte's raw deviation is strictly positive, and for a
positive reference range a positive deviation happens exactly when the
value is strictly below the minimum or strictly above the maximum. -/
theorem C10_elevated_out_of_range (p : Panel) (r : MetaboliteSelection) (e : ScoredMetab)
    (hbest : bestScored (scoreEntries p) = some e)
    (hsel : select_primary_metabolite p = some r) :
    (r.elevated = true ↔ 0 < e.dev) ∧
    (0 < e.info.lo → 0 < e.info.hi →
      (0 < e.dev ↔ (e.value < e.info.lo ∨ e.info.hi < e.value))) := by
  have hr : r = { name := e.name, mw := e.info.mw, value := some e.value
                  deviationPercent := pyRound1 (e.dev * 100)
                  elevated := decide (e.dev > 0) } := by
    simp only [select_primary_metabolite, hbest] at hsel
    exact (Option.some.inj hsel).symm
  constructor
  · rw [hr]
    simp [decide_eq_true_iff]
  · intro hlo hhi
    obtain ⟨_, _, hdev, _, _⟩ := mem_scoreEntries (bestScored_mem hbest)
    rw [hdev]
    exact deviationIn_pos_iff _ _ _ hlo hhi

/-- C10, witness: a cortisol reading of `0.1`, strictly below its
reference minimum `0.3`, is selected with `elevated = true`. -/
theorem C10_elevated_out_of_range_witness :
    select_primary_metabolite belowRangePanel = some belowRangeSel ∧
    belowRangeSel.elevated = true ∧ (1/10 : ℚ) < 3/10 := by
  have hb : bestScored (scoreEntries belowRangePanel) = some belowRangeEntry := by
    norm_num [belowRangePanel, belowRangeEntry, scoreEntries, bestScored, List.filterMap,
      metabolite_db, deviationIn]
  have hs : select_primary_metabolite belowRangePanel = some belowRangeSel := by
    have h : scoreEntries belowRangePanel = [belowRangeEntry] := by
      norm_num [scoreEntries, List.filterMap, metabolite_db, deviationIn, belowRangePanel,
        belowRangeEntry]
    rw [select_primary_metabolite, h]
    norm_num [bestScored, belowRangeEntry, belowRangeSel, pyRound1, pyRoundInt]
  exact ⟨hs,
    ((C10_elevated_out_of_range belowRangePanel belowRangeSel belowRangeEntry hb hs).1).mpr
      (by norm_num [belowRangeEntry]), by norm_num⟩

end InjuryPrediction
